import Mathlib

/-!
# Verification of the screensense session / vision-processing core

A shallow embedding of the screensense TypeScript library and proofs of the
specification's claims about it.  The embedding covers:

* `normalizeKey` (src/utils/helpers.ts),
* `ClaudeScreenProcessor.process` (src/core/eyes/processors/claudeScreenProcessor.ts),
* `ScreenProcessorFactory` (src/core/eyes/screenProcessing.ts),
* the `ScreenSense` session class (src/core/client.ts): `startBrowser`,
  `closeBrowser`, `getCoordinates`, `dragMouse`, `getTabs`, `openNewTab`,
  `switchTab`, `generateTabId`.

External collaborators (the Playwright driver and the Anthropic HTTP client)
are modelled as oracles: each `await`-ed driver call either yields a value or
a JavaScript error, supplied as an explicit parameter; side-effecting pointer
and keyboard calls are recorded in an emitted trace.  Asynchronous methods run
each request to completion in program order (the library issues no internal
parallelism), so each method is a function from the receiver state and the
oracle to a result, an updated state, and a trace.
-/

namespace ScreenSense

/-- Association-list read, mirroring a JS `Map.get` / property read: the
first binding for the key wins (a JS object or `Map` has at most one). -/
def getEntry {α : Type} : List (String × α) → String → Option α
  | [], _ => none
  | (k', v') :: rest, k => if k' = k then some v' else getEntry rest k

/-- Association-list write, mirroring `Map.set` / `obj[k] = v`: an existing
binding is overwritten in place, a new key is appended. -/
def setEntry {α : Type} : List (String × α) → String → α → List (String × α)
  | [], k, v => [(k, v)]
  | (k', v') :: rest, k, v =>
    if k' = k then (k, v) :: rest else (k', v') :: setEntry rest k v

theorem getEntry_setEntry_same {α : Type} (l : List (String × α)) (k : String) (v : α) :
    getEntry (setEntry l k v) k = some v := by
  induction l with
  | nil => simp [setEntry, getEntry]
  | cons hd tl ih =>
    obtain ⟨k', v'⟩ := hd
    by_cases h : k' = k
    · simp [setEntry, h, getEntry]
    · simp [setEntry, h, getEntry, ih]

theorem getEntry_setEntry_other {α : Type} (l : List (String × α)) (k k' : String) (v : α)
    (h : k' ≠ k) : getEntry (setEntry l k v) k' = getEntry l k' := by
  induction l with
  | nil => simp [setEntry, getEntry, Ne.symm h]
  | cons hd tl ih =>
    obtain ⟨k₀, v₀⟩ := hd
    by_cases h₀ : k₀ = k
    · subst h₀
      simp [setEntry, getEntry, Ne.symm h]
    · simp only [setEntry, if_neg h₀, getEntry]
      by_cases h₁ : k₀ = k'
      · simp [h₁]
      · simp [h₁, ih]

theorem getEntry_eq_none_of_no_key {α : Type} (l : List (String × α)) (k : String)
    (h : ∀ p ∈ l, k ≠ p.1) : getEntry l k = none := by
  induction l with
  | nil => rfl
  | cons hd tl ih =>
    obtain ⟨k', v'⟩ := hd
    have hne : k ≠ k' := h (k', v') (List.mem_cons_self _ _)
    simp only [getEntry, if_neg (Ne.symm hne)]
    exact ih fun p hp => h p (List.mem_cons_of_mem _ hp)

/-! ## Property reads on plain object literals

Both `keyMap` (src/utils/helpers.ts) and the processor registry
(src/core/eyes/screenProcessing.ts) are plain JS object literals, so a
property read `obj[k]` that misses every own key continues along the
prototype chain and, on `Object.prototype`, finds one of its member
functions (or the legacy `__proto__` accessor) — all truthy values.  Only a
name absent from the own keys and from `Object.prototype` reads as
`undefined`. -/

/-- The own property names of `Object.prototype` (ECMA-262 §20.1.3 together
with the Annex B legacy accessors), i.e. the names a plain object literal
inherits.  Each reads as a truthy value (a function, or for `__proto__` the
prototype object itself). -/
def objectProtoKeys : List String :=
  ["constructor", "hasOwnProperty", "isPrototypeOf", "propertyIsEnumerable",
   "toLocaleString", "toString", "valueOf", "__proto__", "__defineGetter__",
   "__defineSetter__", "__lookupGetter__", "__lookupSetter__"]

/-- Result of the property read `obj[k]` on an object literal whose own
properties are the association list and whose prototype is (still)
`Object.prototype`: an own value, an inherited `Object.prototype` member, or
`undefined`. -/
inductive PropRead (α : Type) where
  | own (v : α)
  | inherited (name : String)
  | undef
deriving DecidableEq, Repr

/-- Property read on a plain object literal: an own key wins; otherwise the
prototype chain supplies the `Object.prototype` member of that name, if any;
otherwise the read is `undefined`. -/
def readProp {α : Type} (l : List (String × α)) (k : String) : PropRead α :=
  match getEntry l k with
  | some v => PropRead.own v
  | none => if k ∈ objectProtoKeys then PropRead.inherited k else PropRead.undef

/-! ## Key normalization (src/utils/helpers.ts) -/

/-- The fixed alias table `keyMap` from `normalizeKey`: common key aliases
mapped to their X11 `keysymdef.h` equivalents. -/
def keyMap : List (String × String) :=
  [("alt", "Alt_L"),
   ("ctrl", "Control_L"),
   ("control", "Control_L"),
   ("meta", "Meta_L"),
   ("super", "Super_L"),
   ("shift", "Shift_L"),
   ("enter", "Return"),
   ("return", "Return")]

/-- Embeds `key.toLowerCase()`.  The table's keys are ASCII, and on ASCII letters
JavaScript `toLowerCase` and `Char.toLower` agree. -/
def toLowerString (s : String) : String := ⟨s.data.map Char.toLower⟩

/-- The JS value `normalizeKey` evaluates to: a string, or — when the
lookup key hits the object literal's prototype chain — the inherited
`Object.prototype` member of that name (a function, or for `__proto__` the
prototype object). -/
inductive JsValue where
  | str (s : String)
  | protoMember (name : String)
deriving DecidableEq, Repr

/-- Embeds `normalizeKey` (src/utils/helpers.ts): `keyMap[key.toLowerCase()]
|| key`.  An own table value is returned when truthy (every non-empty
string; all eight table values are non-empty); a lookup key that misses the
own keys but names an `Object.prototype` member returns that inherited
member, which is truthy; only an `undefined` read falls back to `key`. -/
def normalizeKey (key : String) : JsValue :=
  match readProp keyMap (toLowerString key) with
  | PropRead.own v => if v = "" then JsValue.str key else JsValue.str v
  | PropRead.inherited n => JsValue.protoMember n
  | PropRead.undef => JsValue.str key

/-- C8 as frozen is false on the code: `keyMap` is a plain object literal,
so an input whose lowercase form names an inherited `Object.prototype`
member is not returned unchanged — the lookup finds the truthy inherited
member and returns it.  Concretely, "constructor" matches no alias of the
table, yet `normalizeKey("constructor")` evaluates to the inherited
`Object.prototype.constructor`, not to the string "constructor". -/
theorem normalizeKey_unchanged_counterexample :
    (∀ p ∈ keyMap, toLowerString "constructor" ≠ p.1) ∧
    normalizeKey "constructor" ≠ JsValue.str "constructor" ∧
    normalizeKey "constructor" = JsValue.protoMember "constructor" :=
  ⟨by decide, by decide, by decide⟩

/-- C8 (amended): key normalization is a total pure function: every string
that case-insensitively equals an alias in the fixed table (alt, ctrl,
control, meta, super, shift, enter, return) maps to the table's target key
name; every other input string whose lowercase form does not name an
`Object.prototype` member is returned unchanged; an input whose lowercase
form does name such a member (only "constructor" and "__proto__" are
reachable, the other member names containing upper-case letters) returns
the inherited member found on the object literal's prototype chain. -/
theorem normalizeKey_spec (s : String) :
    (∀ p ∈ keyMap, toLowerString s = p.1 → normalizeKey s = JsValue.str p.2) ∧
    ((∀ p ∈ keyMap, toLowerString s ≠ p.1) → toLowerString s ∉ objectProtoKeys →
      normalizeKey s = JsValue.str s) ∧
    ((∀ p ∈ keyMap, toLowerString s ≠ p.1) → toLowerString s ∈ objectProtoKeys →
      normalizeKey s = JsValue.protoMember (toLowerString s)) := by
  refine ⟨?_, ?_, ?_⟩
  · intro p hp heq
    fin_cases hp <;>
      simp only at heq <;>
      simp [normalizeKey, readProp, heq, keyMap, getEntry]
  · intro h hnp
    simp [normalizeKey, readProp,
      getEntry_eq_none_of_no_key keyMap (toLowerString s) h, hnp]
  · intro h hp
    simp [normalizeKey, readProp,
      getEntry_eq_none_of_no_key keyMap (toLowerString s) h, hp]

/-- Witness for C8 (amended) at concrete inputs: "CTRL" is an alias of the
table (its lowercase form is "ctrl") and normalizes to "Control_L";
"Escape" matches no alias and no prototype member and is returned
unchanged; "__Proto__" lowercases to the inherited accessor name
"__proto__" and returns the inherited member. -/
theorem normalizeKey_spec_witness :
    normalizeKey "CTRL" = JsValue.str "Control_L" ∧
    normalizeKey "Escape" = JsValue.str "Escape" ∧
    normalizeKey "__Proto__" = JsValue.protoMember "__proto__" :=
  ⟨(normalizeKey_spec "CTRL").1 ("ctrl", "Control_L") (by decide) (by decide),
   (normalizeKey_spec "Escape").2.1 (by decide) (by decide),
   (normalizeKey_spec "__Proto__").2.2 (by decide) (by decide)⟩

/-! ## Default vision processor (src/core/eyes/processors/claudeScreenProcessor.ts)

`ClaudeScreenProcessor.process` is embedded as a function of the processor
state (resolved API key and memoization cache), of the backend's response to
the single `client.beta.messages.create` call it may issue, and of the two
external parsing collaborators (`JSON.parse` and `ElementArraySchema.parse`,
which the source invokes inside one `try`).  The result carries the returned
element list, the updated processor state, and whether the vision backend was
invoked.  The source wraps every fallible step in `try`/`catch` handlers that
return `[]`, so the embedding is a total function: no exception escapes. -/

/-- Embeds `ScreenElement` (src/core/types.ts): a description and a 2-tuple numeric
coordinate, validated by `ScreenElementSchema`.  Coordinates are pixel
positions, modelled as integers. -/
structure ScreenElement where
  description : String
  coordinate : Int × Int
deriving DecidableEq, Repr

/-- One content block of the vision-model response; only its being a text
block (and the text itself) matters to `process`. -/
inductive ContentBlock where
  | text (s : String)
  | other
deriving DecidableEq, Repr

/-- Outcome of the `client.beta.messages.create` call: a response with an
ordered list of content blocks, or a rejected promise (transport/backend
error). -/
inductive BackendResult where
  | ok (blocks : List ContentBlock)
  | err (e : String)
deriving DecidableEq, Repr

/-- Mutable state of one `ClaudeScreenProcessor` instance: the resolved API
key (`''` when neither the constructor argument nor `ANTHROPIC_API_KEY` was
provided) and the `cachedResults` map. -/
structure ProcState where
  apiKey : String
  cache : List (String × List ScreenElement)
deriving DecidableEq, Repr

/-- Embeds `screenshot.substring(0, 100)`: the first 100 characters. -/
def substring100 (s : String) : String := ⟨s.data.take 100⟩

/-- The cache key: `` `${screenshot.substring(0, 100)}_${instruction}` ``. -/
def cacheKey (screenshot instruction : String) : String :=
  substring100 screenshot ++ "_" ++ instruction

/-- The scan `for (const block of response.content)`: only the first text
block is consumed (both parse branches `return` out of the loop). -/
def firstText : List ContentBlock → Option String
  | [] => none
  | ContentBlock.text s :: _ => some s
  | ContentBlock.other :: rest => firstText rest

/-- Embeds `ClaudeScreenProcessor.process`.  `jsonParse` stands for
`JSON.parse` and `validate` for `ElementArraySchema.parse` followed by the
(identity) mapping to `ScreenElement`; each returns `none` where the JS
function throws.  Control flow follows the source: missing key short-circuits
to `[]`; a cache hit returns the stored value without calling the backend; on
a miss the backend is invoked, a transport error or a parse/validation
failure caches and returns `[]`, a response without a text block returns `[]`
without caching, and a valid response caches and returns its elements. -/
def process {J : Type} (jsonParse : String → Option J)
    (validate : J → Option (List ScreenElement))
    (resp : BackendResult) (st : ProcState) (screenshot instruction : String) :
    List ScreenElement × ProcState × Bool :=
  if st.apiKey = "" then ([], st, false)
  else
    let key := cacheKey screenshot instruction
    match getEntry st.cache key with
    | some v => (v, st, false)
    | none =>
      match resp with
      | BackendResult.err _ =>
        ([], { st with cache := setEntry st.cache key [] }, true)
      | BackendResult.ok blocks =>
        match firstText blocks with
        | none => ([], st, true)
        | some txt =>
          match jsonParse txt with
          | none => ([], { st with cache := setEntry st.cache key [] }, true)
          | some j =>
            match validate j with
            | none => ([], { st with cache := setEntry st.cache key [] }, true)
            | some elems =>
              (elems, { st with cache := setEntry st.cache key elems }, true)

/-- Whether `process`, on a cache miss, remembers the outcome of this backend
response: transport errors and responses with a text block are cached, a
response with no text block is not. -/
def cachesOutcome : BackendResult → Bool
  | BackendResult.err _ => true
  | BackendResult.ok blocks => (firstText blocks).isSome

theorem process_cache_hit {J : Type} (jsonParse : String → Option J)
    (validate : J → Option (List ScreenElement)) (resp : BackendResult)
    (st : ProcState) (s i : String) (w : List ScreenElement)
    (hkey : st.apiKey ≠ "") (hhit : getEntry st.cache (cacheKey s i) = some w) :
    process jsonParse validate resp st s i = (w, st, false) := by
  simp [process, hkey, hhit]

theorem process_invokes_of_miss {J : Type} (jsonParse : String → Option J)
    (validate : J → Option (List ScreenElement)) (resp : BackendResult)
    (st : ProcState) (s i : String)
    (hkey : st.apiKey ≠ "") (hmiss : getEntry st.cache (cacheKey s i) = none) :
    (process jsonParse validate resp st s i).2.2 = true := by
  cases resp with
  | err e => simp [process, hkey, hmiss]
  | ok blocks =>
    cases hft : firstText blocks with
    | none => simp [process, hkey, hmiss, hft]
    | some txt =>
      cases hjp : jsonParse txt with
      | none => simp [process, hkey, hmiss, hft, hjp]
      | some j =>
        cases hv : validate j with
        | none => simp [process, hkey, hmiss, hft, hjp, hv]
        | some elems => simp [process, hkey, hmiss, hft, hjp, hv]

theorem process_caches_of_miss {J : Type} (jsonParse : String → Option J)
    (validate : J → Option (List ScreenElement)) (resp : BackendResult)
    (st : ProcState) (s i : String)
    (hkey : st.apiKey ≠ "") (hmiss : getEntry st.cache (cacheKey s i) = none)
    (hc : cachesOutcome resp = true) :
    ∃ w, (process jsonParse validate resp st s i).2.1 =
      { st with cache := setEntry st.cache (cacheKey s i) w } := by
  cases resp with
  | err e => exact ⟨[], by simp [process, hkey, hmiss]⟩
  | ok blocks =>
    rcases Option.isSome_iff_exists.mp hc with ⟨txt, hft⟩
    cases hjp : jsonParse txt with
    | none => exact ⟨[], by simp [process, hkey, hmiss, hft, hjp]⟩
    | some j =>
      cases hv : validate j with
      | none => exact ⟨[], by simp [process, hkey, hmiss, hft, hjp, hv]⟩
      | some elems => exact ⟨elems, by simp [process, hkey, hmiss, hft, hjp, hv]⟩

theorem cacheKey_ne_of_instruction_ne (s : String) {i i' : String} (h : i ≠ i') :
    cacheKey s i ≠ cacheKey s i' := by
  intro he
  apply h
  have hd : (substring100 s ++ "_" ++ i).data = (substring100 s ++ "_" ++ i').data := by
    rw [show substring100 s ++ "_" ++ i = substring100 s ++ "_" ++ i' from he]
  simp only [String.data_append] at hd
  have : i.data = i'.data := List.append_cancel_left hd
  cases i; cases i'
  exact congrArg String.mk this

/-- C2: for every screenshot and instruction, the default vision processor's
`process` never throws (the embedding is a total function, mirroring the
source's `try`/`catch` handlers) and returns an empty list in each of these
cases: no credential configured, a transport/backend error, a response with
no text block, malformed JSON in the response's text block, and schema-invalid
JSON. -/
theorem process_never_throws {J : Type} (jsonParse : String → Option J)
    (validate : J → Option (List ScreenElement)) (resp : BackendResult)
    (st : ProcState) (s i : String) :
    (st.apiKey = "" → process jsonParse validate resp st s i = ([], st, false)) ∧
    (st.apiKey ≠ "" → getEntry st.cache (cacheKey s i) = none →
      ((∀ e, resp = BackendResult.err e →
          (process jsonParse validate resp st s i).1 = []) ∧
       (∀ blocks, resp = BackendResult.ok blocks → firstText blocks = none →
          (process jsonParse validate resp st s i).1 = []) ∧
       (∀ blocks txt, resp = BackendResult.ok blocks → firstText blocks = some txt →
          jsonParse txt = none →
          (process jsonParse validate resp st s i).1 = []) ∧
       (∀ blocks txt j, resp = BackendResult.ok blocks → firstText blocks = some txt →
          jsonParse txt = some j → validate j = none →
          (process jsonParse validate resp st s i).1 = []))) := by
  constructor
  · intro hkey
    simp [process, hkey]
  · intro hkey hmiss
    refine ⟨?_, ?_, ?_, ?_⟩
    · rintro e rfl
      simp [process, hkey, hmiss]
    · rintro blocks rfl hft
      simp [process, hkey, hmiss, hft]
    · rintro blocks txt rfl hft hjp
      simp [process, hkey, hmiss, hft, hjp]
    · rintro blocks txt j rfl hft hjp hv
      simp [process, hkey, hmiss, hft, hjp, hv]

/-- Witness for C2 at concrete inputs: a processor with no credential
returns `[]` without invoking the backend, and a keyed processor facing a
transport error returns `[]`. -/
theorem process_never_throws_witness :
    process (J := Unit) (fun _ => none) (fun _ => some [])
      (BackendResult.ok []) ⟨"", []⟩ "shot" "find the button" = ([], ⟨"", []⟩, false) ∧
    (process (J := Unit) (fun _ => none) (fun _ => some [])
      (BackendResult.err "ECONNRESET") ⟨"sk-key", []⟩ "shot" "find the button").1 = [] :=
  ⟨(process_never_throws (J := Unit) (fun _ => none) (fun _ => some [])
      (BackendResult.ok []) ⟨"", []⟩ "shot" "find the button").1 rfl,
   ((process_never_throws (J := Unit) (fun _ => none) (fun _ => some [])
      (BackendResult.err "ECONNRESET") ⟨"sk-key", []⟩ "shot" "find the button").2
      (by decide) rfl).1 "ECONNRESET" rfl⟩

/-- C3 as frozen is false on the code: a response containing no text block
is not cached, so a second `process` call with the identical cache key
invokes the vision backend a second time.  Concretely, with a configured
credential, an empty cache and a backend response whose only content block
is a non-text block, both of two identical calls report a backend
invocation. -/
theorem process_memoizes_counterexample :
    (process (J := Unit) (fun _ => none) (fun _ => some [])
      (BackendResult.ok [ContentBlock.other]) ⟨"k", []⟩ "shot" "instr").2.2 = true ∧
    (process (J := Unit) (fun _ => none) (fun _ => some [])
      (BackendResult.ok [ContentBlock.other])
      (process (J := Unit) (fun _ => none) (fun _ => some [])
        (BackendResult.ok [ContentBlock.other]) ⟨"k", []⟩ "shot" "instr").2.1
      "shot" "instr").2.2 = true :=
  ⟨rfl, rfl⟩

/-- C3 (amended): with a credential configured and a cold cache, two
`process` calls with an identical cache key (first 100 characters of the
screenshot plus the instruction) invoke the vision backend at most once in
total, provided the first call's response is remembered (a transport error
or a response with a text block; a response with no text block is not
cached); a third call with a different instruction but the same screenshot
invokes the backend again. -/
theorem process_memoizes {J : Type} (jsonParse : String → Option J)
    (validate : J → Option (List ScreenElement)) (r1 r2 r3 : BackendResult)
    (st : ProcState) (s i i' : String)
    (hkey : st.apiKey ≠ "")
    (hmiss : getEntry st.cache (cacheKey s i) = none)
    (hmiss' : getEntry st.cache (cacheKey s i') = none)
    (hc : cachesOutcome r1 = true)
    (hne : i' ≠ i) :
    (process jsonParse validate r1 st s i).2.2 = true ∧
    (process jsonParse validate r2
       (process jsonParse validate r1 st s i).2.1 s i).2.2 = false ∧
    (process jsonParse validate r3
       (process jsonParse validate r2
         (process jsonParse validate r1 st s i).2.1 s i).2.1 s i').2.2 = true := by
  rcases process_caches_of_miss jsonParse validate r1 st s i hkey hmiss hc with ⟨w, hst1⟩
  have hkey1 : ((process jsonParse validate r1 st s i).2.1).apiKey ≠ "" := by
    rw [hst1]; exact hkey
  have hhit1 : getEntry ((process jsonParse validate r1 st s i).2.1).cache
      (cacheKey s i) = some w := by
    rw [hst1]; exact getEntry_setEntry_same st.cache (cacheKey s i) w
  have hcall2 := process_cache_hit jsonParse validate r2
    ((process jsonParse validate r1 st s i).2.1) s i w hkey1 hhit1
  refine ⟨process_invokes_of_miss jsonParse validate r1 st s i hkey hmiss, ?_, ?_⟩
  · rw [hcall2]
  · rw [hcall2]
    apply process_invokes_of_miss _ _ _ _ _ _ hkey1
    rw [hst1]
    have hkne : cacheKey s i' ≠ cacheKey s i :=
      cacheKey_ne_of_instruction_ne s hne
    simpa [getEntry_setEntry_other st.cache (cacheKey s i) (cacheKey s i') w hkne]
      using hmiss'

/-- Witness for C3 (amended) at concrete inputs: key "k", cold cache, a
transport error on the first call; the backend is invoked on calls 1 and 3
but not on call 2. -/
theorem process_memoizes_witness :
    (process (J := Unit) (fun _ => none) (fun _ => some [])
      (BackendResult.err "boom") ⟨"k", []⟩ "shot" "a").2.2 = true ∧
    (process (J := Unit) (fun _ => none) (fun _ => some [])
      (BackendResult.err "boom")
      (process (J := Unit) (fun _ => none) (fun _ => some [])
        (BackendResult.err "boom") ⟨"k", []⟩ "shot" "a").2.1 "shot" "a").2.2 = false ∧
    (process (J := Unit) (fun _ => none) (fun _ => some [])
      (BackendResult.err "boom")
      (process (J := Unit) (fun _ => none) (fun _ => some [])
        (BackendResult.err "boom")
        (process (J := Unit) (fun _ => none) (fun _ => some [])
          (BackendResult.err "boom") ⟨"k", []⟩ "shot" "a").2.1 "shot" "a").2.1
      "shot" "b").2.2 = true :=
  process_memoizes (J := Unit) (fun _ => none) (fun _ => some [])
    (BackendResult.err "boom") (BackendResult.err "boom") (BackendResult.err "boom")
    ⟨"k", []⟩ "shot" "a" "b" (by decide) rfl rfl rfl (by decide)

/-! ## Processor registry (src/core/eyes/screenProcessing.ts)

`ScreenProcessorFactory` keeps a static `Record<string, ScreenProcessor>`,
initialised as the object literal `{}`.  Processor instances are modelled by
numeric identities; constructing `new ClaudeScreenProcessor()` allocates a
fresh identity, tracked by the `nextId` counter.  The registry's own
properties are an association list, and reads go through `readProp`, which
models the literal's prototype chain: an unregistered name that names an
`Object.prototype` member reads as that truthy inherited member.

One caveat on writes: `this.registry[name] = processor` creates an own
property for every name except `"__proto__"`, whose inherited legacy setter
would instead replace the registry object's prototype.  The embedding's
`setEntry` models the own-property write; consequently the theorems below
that concern reads of *unregistered* names carry the hypothesis
`getEntry f.registry "__proto__" = none` (equivalently, `"__proto__"` was
never registered), which is exactly the condition under which the
registry's prototype is still `Object.prototype` and `readProp` is the
source's read.  (Registering `"__proto__"` and then resolving it returns
the registered processor in JS too — the inherited getter yields the new
prototype — so the register-then-resolve property needs no such caveat for
its result, only for the stored-entry clause, which excludes that name.) -/

structure Factory where
  registry : List (String × Nat)
  nextId : Nat
deriving DecidableEq, Repr

/-- Embeds `ScreenProcessorFactory.registerScreenProcessor`:
`this.registry[name] = processor` stores unconditionally, overwriting any
existing entry (see the section comment for the `"__proto__"` write
caveat). -/
def registerScreenProcessor (f : Factory) (name : String) (pid : Nat) : Factory :=
  { f with registry := setEntry f.registry name pid }

/-- The JS value `getScreenProcessor` evaluates to: a `ScreenProcessor`
instance (registered or freshly constructed default), or the inherited
`Object.prototype` member found when an unregistered prototype-member name
passes the truthiness guard. -/
inductive ProcessorRef where
  | inst (pid : Nat)
  | protoMember (name : String)
deriving DecidableEq, Repr

/-- Embeds `ScreenProcessorFactory.getScreenProcessor`:
`if (customProcessorName && this.registry[customProcessorName]) return
this.registry[customProcessorName]; return new ClaudeScreenProcessor()`.
A JS string is truthy exactly when non-empty; a registered processor object
and an inherited `Object.prototype` member are always truthy, so both are
returned by the guard; only an absent name, the empty string, or an
`undefined` read falls through to constructing a brand-new default
instance. -/
def getScreenProcessor (f : Factory) (name? : Option String) :
    ProcessorRef × Factory :=
  match name? with
  | some n =>
    if n ≠ "" then
      match readProp f.registry n with
      | PropRead.own pid => (ProcessorRef.inst pid, f)
      | PropRead.inherited m => (ProcessorRef.protoMember m, f)
      | PropRead.undef =>
        (ProcessorRef.inst f.nextId, { f with nextId := f.nextId + 1 })
    else (ProcessorRef.inst f.nextId, { f with nextId := f.nextId + 1 })
  | none => (ProcessorRef.inst f.nextId, { f with nextId := f.nextId + 1 })

/-- Every processor identity stored in the registry predates the factory's
next fresh identity (true of any reachable factory state). -/
def RegOk (f : Factory) : Prop := ∀ p ∈ f.registry, p.2 < f.nextId

/-- C7 as frozen is false on the code at two inputs.  First, `""` is falsy
in JS, so after `register("", P)` (with `P` the instance `5`) resolving `""`
never consults the registry and returns a brand-new default instance (`6`),
not the registered `5`.  Second, the registry is a plain object literal, so
resolving the never-registered name "toString" finds the truthy inherited
`Object.prototype.toString` and returns it — not a brand-new default
instance (the factory's allocation counter does not move). -/
theorem factory_resolve_counterexample :
    getEntry (registerScreenProcessor ⟨[], 6⟩ "" 5).registry "" = some 5 ∧
    (getScreenProcessor (registerScreenProcessor ⟨[], 6⟩ "" 5) (some "")).1 =
      ProcessorRef.inst 6 ∧
    ProcessorRef.inst 6 ≠ ProcessorRef.inst 5 ∧
    getScreenProcessor ⟨[], 0⟩ (some "toString") =
      (ProcessorRef.protoMember "toString", ⟨[], 0⟩) :=
  ⟨rfl, rfl, by decide, rfl⟩

/-- C7 (amended): for every nonempty string name other than `"__proto__"`
and every processor `P`, after `register(name, P)` a resolve with exactly
that name (case-sensitively) returns `P`, overwriting any prior entry under
the same name; for an absent name, the empty string (falsy, never matched),
or an unregistered name that is not an `Object.prototype` member name,
resolve constructs and returns a brand-new default processor instance,
never a previously registered processor; an unregistered name that does
name an `Object.prototype` member (constructor, toString, __proto__, ...)
instead returns that truthy inherited member — not a processor and not a
fresh default.  The unregistered-name clauses assume `"__proto__"` was
never registered, the condition under which the registry object's prototype
is still `Object.prototype`. -/
theorem factory_register_resolve (f : Factory) (name : String) (pid : Nat) :
    (name ≠ "" → name ≠ "__proto__" →
      getEntry (registerScreenProcessor f name pid).registry name = some pid ∧
      (getScreenProcessor (registerScreenProcessor f name pid) (some name)).1 =
        ProcessorRef.inst pid) ∧
    (∀ n, getEntry f.registry "__proto__" = none →
      (n = "" ∨ (getEntry f.registry n = none ∧ n ∉ objectProtoKeys)) →
      getScreenProcessor f (some n) =
        (ProcessorRef.inst f.nextId, { f with nextId := f.nextId + 1 })) ∧
    getScreenProcessor f none =
      (ProcessorRef.inst f.nextId, { f with nextId := f.nextId + 1 }) ∧
    (∀ n, getEntry f.registry "__proto__" = none → n ≠ "" →
      getEntry f.registry n = none → n ∈ objectProtoKeys →
      getScreenProcessor f (some n) = (ProcessorRef.protoMember n, f)) ∧
    (RegOk f → ∀ p ∈ f.registry, p.2 ≠ f.nextId) := by
  refine ⟨?_, ?_, rfl, ?_, ?_⟩
  · intro h hnp
    refine ⟨getEntry_setEntry_same f.registry name pid, ?_⟩
    simp [getScreenProcessor, h, registerScreenProcessor, readProp,
      getEntry_setEntry_same f.registry name pid]
  · rintro n hproto (rfl | ⟨hnone, hnp⟩)
    · simp [getScreenProcessor]
    · by_cases h : n = ""
      · simp [getScreenProcessor, h]
      · simp [getScreenProcessor, h, readProp, hnone, hnp]
  · intro n hproto h hnone hp
    simp [getScreenProcessor, h, readProp, hnone, hp]
  · intro hok p hp
    exact Nat.ne_of_lt (hok p hp)

/-- Witness for C7 (amended) at concrete inputs: registering "alt" as
instance `7` on an empty factory lets `resolve("alt")` return `7`;
`resolve("missing")` on a factory holding only "alt" allocates the fresh
default instance `8`; `resolve("valueOf")` on the same factory returns the
inherited prototype member and allocates nothing. -/
theorem factory_register_resolve_witness :
    (getScreenProcessor (registerScreenProcessor ⟨[], 0⟩ "alt" 7) (some "alt")).1 =
      ProcessorRef.inst 7 ∧
    getScreenProcessor ⟨[("alt", 7)], 8⟩ (some "missing") =
      (ProcessorRef.inst 8, ⟨[("alt", 7)], 9⟩) ∧
    getScreenProcessor ⟨[("alt", 7)], 8⟩ (some "valueOf") =
      (ProcessorRef.protoMember "valueOf", ⟨[("alt", 7)], 8⟩) :=
  ⟨((factory_register_resolve ⟨[], 0⟩ "alt" 7).1 (by decide) (by decide)).2,
   (factory_register_resolve ⟨[("alt", 7)], 8⟩ "x" 0).2.1 "missing" (by decide)
     (Or.inr ⟨by decide, by decide⟩),
   (factory_register_resolve ⟨[("alt", 7)], 8⟩ "x" 0).2.2.2.1 "valueOf" (by decide)
     (by decide) (by decide) (by decide)⟩

/-! ## Session manager (src/core/client.ts)

The `ScreenSense` class owns the Playwright browser handle, the context, the
current tab, the list of other tabs, and the tab-id counter.  Driver handles
(browser, context, page) are opaque numeric identifiers.  Each `await`-ed
driver call is an oracle value: `Except String β` for a call that either
yields a value or rejects with a JavaScript error. -/

/-- Embeds `RemoteBrowserSettings | LocalBrowserSettings` (src/core/types.ts): a
tagged variant selected by the explicit `type` discriminant. -/
inductive BrowserSettings where
  | remote (wssUrl cdpUrl : Option String)
  | local (localChromePath proxy : Option String)
deriving DecidableEq, Repr

/-- Embeds `ScreenSenseConfig` (src/core/types.ts) as consumed by the client:
optional browser settings and optional context user agent. -/
structure ScreenSenseConfig where
  browserSettings : Option BrowserSettings
  userAgent : Option String
deriving DecidableEq, Repr

/-- Embeds `Tab` (src/core/types.ts): numeric id, Playwright page handle, title. -/
structure Tab where
  id : Nat
  page : Nat
  title : String
deriving DecidableEq, Repr

/-- The private fields of one `ScreenSense` instance. -/
structure SessionState where
  browser : Option Nat
  context : Option Nat
  currentTab : Option Tab
  otherTabs : List Tab
  tabIdCounter : Nat
  config : ScreenSenseConfig
deriving DecidableEq, Repr

/-- The state of a freshly constructed `ScreenSense` instance. -/
def initSession (cfg : ScreenSenseConfig) : SessionState :=
  { browser := none, context := none, currentTab := none, otherTabs := [],
    tabIdCounter := 0, config := cfg }

/-- A side-effecting driver call recorded in an emitted trace.  Keyboard
calls carry the JS value the source passes (`normalizeKey`'s result, which
for prototype-chain hits is not a string). -/
inductive DriverCall where
  | keyDown (key : JsValue)
  | keyUp (key : JsValue)
  | mouseMove (x y : Int)
  | mouseDown
  | mouseUp
  | bringToFront (page : Nat)
deriving DecidableEq, Repr

/-- Oracle for the driver calls `startBrowser` may issue, in program order:
`chromium.connect`, `chromium.connectOverCDP`, `chromium.launch` (at most one
launch runs per call, with local or default options), `browser.newContext`,
`context.newPage`, `page.title`. -/
structure StartOracle where
  connect : Except String Nat
  connectCDP : Except String Nat
  launch : Except String Nat
  newContext : Except String Nat
  newPage : Except String Nat
  title : Except String String
deriving Repr

/-- The browser-resolution phase of `startBrowser`: remote settings try the
WebSocket endpoint, else the CDP endpoint; local settings launch (only if no
browser handle is held); each successful connect/launch assigns
`this.browser`, and a rejection leaves the state as it was at that point. -/
def resolveBrowser (st : SessionState) (o : StartOracle) : Except String SessionState :=
  match st.config.browserSettings with
  | some (BrowserSettings.remote wssUrl cdpUrl) =>
    match wssUrl with
    | some _ => o.connect.map fun b => { st with browser := some b }
    | none =>
      match cdpUrl with
      | some _ => o.connectCDP.map fun b => { st with browser := some b }
      | none => Except.ok st
  | some (BrowserSettings.local _ _) =>
    if st.browser = none then o.launch.map fun b => { st with browser := some b }
    else Except.ok st
  | none => Except.ok st

/-- The context-and-first-tab phase of `startBrowser`: `browser.newContext`
(with the optional user agent), `context.newPage`, and the current-tab
assignment.  In the object literal `generateTabId()` is evaluated before
`await page.title()`, so a failing `title` call has already consumed an id. -/
def openFirstTab (st2 : SessionState) (o : StartOracle) :
    Except String Unit × SessionState :=
  match o.newContext with
  | Except.error e => (Except.error e, st2)
  | Except.ok c =>
    let st3 := { st2 with context := some c }
    match o.newPage with
    | Except.error e => (Except.error e, st3)
    | Except.ok p =>
      let st4 := { st3 with tabIdCounter := st3.tabIdCounter + 1 }
      match o.title with
      | Except.error e => (Except.error e, st4)
      | Except.ok t =>
        (Except.ok (),
         { st4 with currentTab := some ⟨st3.tabIdCounter, p, t⟩ })

/-- Embeds `ScreenSense.startBrowser`.  After the settings-directed
resolution, a still-missing browser handle falls back to a default
`chromium.launch()`; then one context and one page are created and the page
becomes the current tab.  The `catch` block rethrows the original error
without undoing any assignment already made. -/
def startBrowser (st : SessionState) (o : StartOracle) :
    Except String Unit × SessionState :=
  match resolveBrowser st o with
  | Except.error e => (Except.error e, st)
  | Except.ok st1 =>
    match (if st1.browser = none
           then o.launch.map fun b => { st1 with browser := some b }
           else Except.ok st1) with
    | Except.error e => (Except.error e, st1)
    | Except.ok st2 => openFirstTab st2 o

/-- Embeds `ScreenSense.closeBrowser`: a no-op without a browser handle;
otherwise `browser.close()` (whose rejection propagates before any field is
cleared) followed by clearing the handle, context, current tab and others
list.  The id counter is not reset. -/
def closeBrowser (st : SessionState) (o : Except String Unit) :
    Except String Unit × SessionState :=
  match st.browser with
  | none => (Except.ok (), st)
  | some _ =>
    match o with
    | Except.error e => (Except.error e, st)
    | Except.ok _ =>
      (Except.ok (),
       { st with browser := none, context := none, currentTab := none,
                 otherTabs := [] })

/-- Embeds `ScreenSense.getCoordinates` as it stands in src/core/client.ts:
a "dummy implementation" that logs the instruction and resolves to a fixed
three-element list.  It checks no precondition, takes no screenshot and
consults no processor registry. -/
def getCoordinates (_st : SessionState) (_instruction : String) :
    Except String (List ScreenElement) :=
  Except.ok
    [⟨"Search box", (100, 200)⟩,
     ⟨"Submit button", (300, 200)⟩,
     ⟨"Navigation menu", (50, 50)⟩]

/-- Embeds `ScreenSense.dragMouse`: requires a current tab, then a path of
at least two points; holds the (normalized) modifier keys, moves to the
first point, presses the primary button, moves through the remaining points,
releases, and releases the modifiers.  The emitted trace records the pointer
and keyboard calls in program order. -/
def dragMouse (st : SessionState) (path : List (Int × Int))
    (holdKeys : List String) : Except String Unit × List DriverCall :=
  match st.currentTab with
  | none => (Except.error "No active page for mouse drag", [])
  | some _ =>
    if path.length < 2 then
      (Except.error "Drag path must contain at least two points", [])
    else
      match path with
      | [] => (Except.error "Drag path must contain at least two points", [])
      | p0 :: rest =>
        (Except.ok (),
         holdKeys.map (fun k => DriverCall.keyDown (normalizeKey k)) ++
         [DriverCall.mouseMove p0.1 p0.2, DriverCall.mouseDown] ++
         rest.map (fun q => DriverCall.mouseMove q.1 q.2) ++
         [DriverCall.mouseUp] ++
         holdKeys.map (fun k => DriverCall.keyUp (normalizeKey k)))

/-- Oracle for the driver calls `openNewTab` may issue, in program order:
`context.newPage()`, `page.goto(url)`, `page.title()`. -/
structure OpenOracle where
  newPage : Except String Nat
  goto : Except String Unit
  title : Except String String
deriving Repr

/-- Embeds `ScreenSense.openNewTab`: requires a context; creates a page and
navigates it (both before any mutation), then pushes the current tab into
the others list, allocates the next id, and — if the `title` fetch succeeds —
installs the new tab as current. -/
def openNewTab (st : SessionState) (o : OpenOracle) :
    Except String Tab × SessionState :=
  match st.context with
  | none => (Except.error "No browser context available to open new tab", st)
  | some _ =>
    match o.newPage with
    | Except.error e => (Except.error e, st)
    | Except.ok p =>
      match o.goto with
      | Except.error e => (Except.error e, st)
      | Except.ok _ =>
        let others := st.otherTabs ++ st.currentTab.toList
        match o.title with
        | Except.error e =>
          (Except.error e,
           { st with otherTabs := others, tabIdCounter := st.tabIdCounter + 1 })
        | Except.ok t =>
          let tab : Tab := ⟨st.tabIdCounter, p, t⟩
          (Except.ok tab,
           { st with otherTabs := others, currentTab := some tab,
                     tabIdCounter := st.tabIdCounter + 1 })

/-- Embeds `findIndex` followed by `splice(index, 1)` on the others list: the first
tab whose id matches, together with the list without it. -/
def extractTab : List Tab → Nat → Option (Tab × List Tab)
  | [], _ => none
  | t :: rest, tabId =>
    if t.id = tabId then some (t, rest)
    else
      match extractTab rest tabId with
      | some (found, rest') => some (found, t :: rest')
      | none => none

/-- Embeds `ScreenSense.switchTab`: a missing id fails with a not-found
error before any mutation or driver call; otherwise the found tab leaves the
others list, the previous current tab is pushed onto it, the found tab
becomes current and is brought to the foreground, and it is returned. -/
def switchTab (st : SessionState) (tabId : Nat) :
    Except String Tab × SessionState × List DriverCall :=
  match extractTab st.otherTabs tabId with
  | none =>
    (Except.error ("Tab with ID " ++ toString tabId ++ " not found"), st, [])
  | some (found, rest) =>
    (Except.ok found,
     { st with currentTab := some found,
               otherTabs := rest ++ st.currentTab.toList },
     [DriverCall.bringToFront found.page])

theorem resolveBrowser_cases (st : SessionState) (o : StartOracle) :
    resolveBrowser st o = Except.ok st ∨
    (∃ b, resolveBrowser st o = Except.ok { st with browser := some b }) ∨
    (∃ e, resolveBrowser st o = Except.error e) := by
  rcases hbs : st.config.browserSettings with _ | bs
  · left; simp [resolveBrowser, hbs]
  · cases bs with
    | remote wssUrl cdpUrl =>
      rcases wssUrl with _ | w
      · rcases cdpUrl with _ | c
        · left; simp [resolveBrowser, hbs]
        · cases hc : o.connectCDP with
          | error e => right; right; exact ⟨e, by simp [resolveBrowser, hbs, hc, Except.map]⟩
          | ok b => right; left; exact ⟨b, by simp [resolveBrowser, hbs, hc, Except.map]⟩
      · cases hc : o.connect with
        | error e => right; right; exact ⟨e, by simp [resolveBrowser, hbs, hc, Except.map]⟩
        | ok b => right; left; exact ⟨b, by simp [resolveBrowser, hbs, hc, Except.map]⟩
    | «local» localChromePath proxy =>
      by_cases hb : st.browser = none
      · cases hl : o.launch with
        | error e => right; right; exact ⟨e, by simp [resolveBrowser, hbs, hb, hl, Except.map]⟩
        | ok b => right; left; exact ⟨b, by simp [resolveBrowser, hbs, hb, hl, Except.map]⟩
      · left; simp [resolveBrowser, hbs, hb]

theorem resolveBrowser_ok_shape (st st1 : SessionState) (o : StartOracle)
    (h : resolveBrowser st o = Except.ok st1) :
    st1 = st ∨ ∃ b, st1 = { st with browser := some b } := by
  rcases resolveBrowser_cases st o with h0 | ⟨b, h0⟩ | ⟨e, h0⟩ <;> rw [h0] at h
  · left; injection h with h; exact h.symm
  · right; exact ⟨b, by injection h with h; exact h.symm⟩
  · cases h

theorem resolveBrowser_ok_counter (st st1 : SessionState) (o : StartOracle)
    (h : resolveBrowser st o = Except.ok st1) :
    st1.tabIdCounter = st.tabIdCounter ∧ st1.currentTab = st.currentTab ∧
    st1.otherTabs = st.otherTabs ∧ st1.context = st.context := by
  rcases resolveBrowser_ok_shape st st1 o h with rfl | ⟨b, rfl⟩ <;> exact ⟨rfl, rfl, rfl, rfl⟩

/-- C1: the spec requires `getCoordinates` to capture a screenshot of the
current tab, resolve a processor from the registry by the session's
configured name, delegate to its `process`, return the result unmodified,
and fail with a precondition error when there is no current tab.  The code
in src/core/client.ts is a dummy that does none of this (its own test suite,
test/core/client.spec.ts, asserts the delegating behaviour and the
`No active page for getting coordinates` failure): evaluated on a session
with no current tab, it succeeds and returns the fixed three-element list. -/
theorem getCoordinates_dummy_bug :
    (initSession ⟨none, none⟩).currentTab = none ∧
    getCoordinates (initSession ⟨none, none⟩) "find the login button" =
      Except.ok
        [⟨"Search box", (100, 200)⟩,
         ⟨"Submit button", (300, 200)⟩,
         ⟨"Navigation menu", (50, 50)⟩] :=
  ⟨rfl, rfl⟩

theorem extractTab_eq_none_iff (l : List Tab) (tabId : Nat) :
    extractTab l tabId = none ↔ ∀ t ∈ l, t.id ≠ tabId := by
  induction l with
  | nil => simp [extractTab]
  | cons hd tl ih =>
    by_cases h : hd.id = tabId
    · simp [extractTab, h]
    · simp only [extractTab, if_neg h]
      cases hext : extractTab tl tabId with
      | some pr => simp [List.forall_mem_cons, h, ← ih, hext]
      | none => simp [List.forall_mem_cons, h, ← ih, hext]

theorem extractTab_some_shape (l : List Tab) (tabId : Nat) (found : Tab)
    (rest : List Tab) (h : extractTab l tabId = some (found, rest)) :
    found.id = tabId ∧ ∃ l1 l2, l = l1 ++ found :: l2 ∧ rest = l1 ++ l2 := by
  induction l generalizing rest with
  | nil => cases h
  | cons hd tl ih =>
    by_cases hid : hd.id = tabId
    · simp only [extractTab, if_pos hid] at h
      injection h with h
      injection h with h1 h2
      subst h1; subst h2
      exact ⟨hid, [], tl, rfl, rfl⟩
    · simp only [extractTab, if_neg hid] at h
      cases hext : extractTab tl tabId with
      | none => rw [hext] at h; cases h
      | some pr =>
        obtain ⟨found', rest'⟩ := pr
        rw [hext] at h
        injection h with h
        injection h with h1 h2
        subst h1
        obtain ⟨hfid, l1, l2, hl, hr⟩ := ih rest' hext
        subst h2
        exact ⟨hfid, hd :: l1, l2, by rw [hl]; rfl, by rw [hr]; rfl⟩

/-- C4: `switchTab(id)` with `id` present in the others list removes that
tab from the others list, pushes the previous current tab onto it, makes the
found tab current (the session has exactly one current-tab slot), brings it
to the foreground, and returns it; with an absent id it fails with a
not-found error, issues no driver call, and leaves the current tab, the
others list, and the id counter unchanged. -/
theorem switchTab_spec (st : SessionState) (tabId : Nat) :
    ((∀ t ∈ st.otherTabs, t.id ≠ tabId) →
      switchTab st tabId =
        (Except.error ("Tab with ID " ++ toString tabId ++ " not found"), st, [])) ∧
    (∀ found rest, extractTab st.otherTabs tabId = some (found, rest) →
      found.id = tabId ∧
      (∃ l1 l2, st.otherTabs = l1 ++ found :: l2 ∧ rest = l1 ++ l2) ∧
      switchTab st tabId =
        (Except.ok found,
         { st with currentTab := some found,
                   otherTabs := rest ++ st.currentTab.toList },
         [DriverCall.bringToFront found.page])) := by
  constructor
  · intro h
    simp [switchTab, (extractTab_eq_none_iff st.otherTabs tabId).mpr h]
  · intro found rest h
    obtain ⟨hid, hshape⟩ := extractTab_some_shape st.otherTabs tabId found rest h
    exact ⟨hid, hshape, by simp [switchTab, h]⟩

/-- Witness for C4 at a concrete session: with current tab 0 and others
`[1, 2]`, switching to 2 returns tab 2, moves tab 0 into the others list and
brings page 12 to the front; switching to 999 fails with the not-found error
and leaves the state untouched. -/
theorem switchTab_spec_witness :
    switchTab
      { browser := some 1, context := some 1, currentTab := some ⟨0, 10, "t"⟩,
        otherTabs := [⟨1, 11, "a"⟩, ⟨2, 12, "b"⟩], tabIdCounter := 3,
        config := ⟨none, none⟩ } 2 =
      (Except.ok ⟨2, 12, "b"⟩,
       { browser := some 1, context := some 1, currentTab := some ⟨2, 12, "b"⟩,
         otherTabs := [⟨1, 11, "a"⟩, ⟨0, 10, "t"⟩], tabIdCounter := 3,
         config := ⟨none, none⟩ },
       [DriverCall.bringToFront 12]) ∧
    switchTab
      { browser := some 1, context := some 1, currentTab := some ⟨0, 10, "t"⟩,
        otherTabs := [⟨1, 11, "a"⟩, ⟨2, 12, "b"⟩], tabIdCounter := 3,
        config := ⟨none, none⟩ } 999 =
      (Except.error "Tab with ID 999 not found",
       { browser := some 1, context := some 1, currentTab := some ⟨0, 10, "t"⟩,
         otherTabs := [⟨1, 11, "a"⟩, ⟨2, 12, "b"⟩], tabIdCounter := 3,
         config := ⟨none, none⟩ },
       []) :=
  ⟨((switchTab_spec
      { browser := some 1, context := some 1, currentTab := some ⟨0, 10, "t"⟩,
        otherTabs := [⟨1, 11, "a"⟩, ⟨2, 12, "b"⟩], tabIdCounter := 3,
        config := ⟨none, none⟩ } 2).2 ⟨2, 12, "b"⟩ [⟨1, 11, "a"⟩] rfl).2.2,
   (switchTab_spec
      { browser := some 1, context := some 1, currentTab := some ⟨0, 10, "t"⟩,
        otherTabs := [⟨1, 11, "a"⟩, ⟨2, 12, "b"⟩], tabIdCounter := 3,
        config := ⟨none, none⟩ } 999).1 (by decide)⟩

/-- C9: on a session with a current tab, `dragMouse` with a path of fewer
than two coordinate pairs fails before any pointer method or modifier-key
press is issued (the emitted trace is empty); with at least two points it
holds the modifiers, moves to the first point, presses the button down,
moves through every subsequent point while held, releases the button and
then the modifiers. -/
theorem dragMouse_spec (st : SessionState) (tab : Tab) (path : List (Int × Int))
    (holdKeys : List String) (h : st.currentTab = some tab) :
    (path.length < 2 →
      dragMouse st path holdKeys =
        (Except.error "Drag path must contain at least two points", [])) ∧
    (∀ p0 rest, path = p0 :: rest → rest ≠ [] →
      dragMouse st path holdKeys =
        (Except.ok (),
         holdKeys.map (fun k => DriverCall.keyDown (normalizeKey k)) ++
         [DriverCall.mouseMove p0.1 p0.2, DriverCall.mouseDown] ++
         rest.map (fun q => DriverCall.mouseMove q.1 q.2) ++
         [DriverCall.mouseUp] ++
         holdKeys.map (fun k => DriverCall.keyUp (normalizeKey k)))) := by
  constructor
  · intro hlen
    cases path with
    | nil => simp [dragMouse, h]
    | cons p0 rest =>
      simp only [dragMouse, h]
      rw [if_pos hlen]
  · rintro p0 rest rfl hne
    have hlen : ¬((p0 :: rest).length < 2) := by
      cases rest with
      | nil => exact absurd rfl hne
      | cons q rest' =>
        simp only [List.length_cons]
        omega
    simp only [dragMouse, h]
    rw [if_neg hlen]

/-- Witness for C9 at concrete inputs: a single-point path fails with an
empty trace; the two-point path `[(0, 0), (5, 5)]` under a held "shift"
yields the full down-move-up trace. -/
theorem dragMouse_spec_witness :
    dragMouse
      { browser := some 1, context := some 1, currentTab := some ⟨0, 10, "t"⟩,
        otherTabs := [], tabIdCounter := 1, config := ⟨none, none⟩ }
      [(0, 0)] [] =
      (Except.error "Drag path must contain at least two points", []) ∧
    dragMouse
      { browser := some 1, context := some 1, currentTab := some ⟨0, 10, "t"⟩,
        otherTabs := [], tabIdCounter := 1, config := ⟨none, none⟩ }
      [(0, 0), (5, 5)] ["shift"] =
      (Except.ok (),
       [DriverCall.keyDown (JsValue.str "Shift_L"), DriverCall.mouseMove 0 0,
        DriverCall.mouseDown, DriverCall.mouseMove 5 5, DriverCall.mouseUp,
        DriverCall.keyUp (JsValue.str "Shift_L")]) :=
  ⟨(dragMouse_spec
      { browser := some 1, context := some 1, currentTab := some ⟨0, 10, "t"⟩,
        otherTabs := [], tabIdCounter := 1, config := ⟨none, none⟩ }
      ⟨0, 10, "t"⟩ [(0, 0)] [] rfl).1 (by decide),
   ((dragMouse_spec
      { browser := some 1, context := some 1, currentTab := some ⟨0, 10, "t"⟩,
        otherTabs := [], tabIdCounter := 1, config := ⟨none, none⟩ }
      ⟨0, 10, "t"⟩ [(0, 0), (5, 5)] ["shift"] rfl).2 (0, 0) [(5, 5)] rfl
      (by decide)).trans (by rfl)⟩

/-- C10: when `openNewTab(url)` fails because page creation
(`context.newPage`) or navigation (`page.goto`) rejects, the error
propagates and the tab registry is unchanged: the current tab, the others
list and the tab-id counter are exactly as before, and no id is consumed. -/
theorem openNewTab_failure_preserves_state (st : SessionState) (o : OpenOracle)
    (c : Nat) (hctx : st.context = some c) :
    (∀ e, o.newPage = Except.error e → openNewTab st o = (Except.error e, st)) ∧
    (∀ p e, o.newPage = Except.ok p → o.goto = Except.error e →
      openNewTab st o = (Except.error e, st)) := by
  constructor
  · intro e hp
    simp [openNewTab, hctx, hp]
  · intro p e hp hg
    simp [openNewTab, hctx, hp, hg]

/-- Witness for C10 at a concrete session: a rejected `newPage` and a
rejected `goto` each propagate their error and leave the state equal to the
input state. -/
theorem openNewTab_failure_preserves_state_witness :
    openNewTab
      { browser := some 1, context := some 7, currentTab := some ⟨0, 10, "t"⟩,
        otherTabs := [], tabIdCounter := 1, config := ⟨none, none⟩ }
      ⟨Except.error "newPage failed", Except.ok (), Except.ok "t"⟩ =
      (Except.error "newPage failed",
       { browser := some 1, context := some 7, currentTab := some ⟨0, 10, "t"⟩,
         otherTabs := [], tabIdCounter := 1, config := ⟨none, none⟩ }) ∧
    openNewTab
      { browser := some 1, context := some 7, currentTab := some ⟨0, 10, "t"⟩,
        otherTabs := [], tabIdCounter := 1, config := ⟨none, none⟩ }
      ⟨Except.ok 11, Except.error "goto failed", Except.ok "t"⟩ =
      (Except.error "goto failed",
       { browser := some 1, context := some 7, currentTab := some ⟨0, 10, "t"⟩,
         otherTabs := [], tabIdCounter := 1, config := ⟨none, none⟩ }) :=
  ⟨(openNewTab_failure_preserves_state
      { browser := some 1, context := some 7, currentTab := some ⟨0, 10, "t"⟩,
        otherTabs := [], tabIdCounter := 1, config := ⟨none, none⟩ }
      ⟨Except.error "newPage failed", Except.ok (), Except.ok "t"⟩ 7 rfl).1
      "newPage failed" rfl,
   (openNewTab_failure_preserves_state
      { browser := some 1, context := some 7, currentTab := some ⟨0, 10, "t"⟩,
        otherTabs := [], tabIdCounter := 1, config := ⟨none, none⟩ }
      ⟨Except.ok 11, Except.error "goto failed", Except.ok "t"⟩ 7 rfl).2
      11 "goto failed" rfl rfl⟩

/-- C6 as frozen is false on the code: `startBrowser`'s `catch` rethrows
without undoing assignments already made, so a failure after the browser is
acquired retains partial state.  Concretely, from a fresh session whose
default `chromium.launch()` succeeds (handle 1) and whose `newContext`
rejects, the call fails with the driver error while the session keeps
`browser = some 1` instead of the previous `none`. -/
theorem startBrowser_partial_state_counterexample :
    startBrowser (initSession ⟨none, none⟩)
      ⟨Except.error "unused", Except.error "unused", Except.ok 1,
       Except.error "newContext failed", Except.ok 2, Except.ok "t"⟩ =
      (Except.error "newContext failed",
       { initSession ⟨none, none⟩ with browser := some 1 }) ∧
    ({ initSession ⟨none, none⟩ with browser := some 1 } : SessionState).browser ≠
      (initSession ⟨none, none⟩).browser :=
  ⟨rfl, by decide⟩

/-- C6 (amended): whenever `start(settings)` fails at the browser
connect/launch step, it fails with the underlying driver's error and the
session remains unstarted with no partial state retained — browser handle,
context, current tab, others list and id counter are all as before the call;
a failure at a later step still propagates the driver's error but keeps the
handles already acquired.  On success the new tab receives the current
counter value — 0 for a fresh session — and is made current. -/
theorem startBrowser_spec (st : SessionState) (o : StartOracle) :
    (∀ e, resolveBrowser st o = Except.error e →
      startBrowser st o = (Except.error e, st)) ∧
    (∀ e, st.browser = none → resolveBrowser st o = Except.ok st →
      o.launch = Except.error e → startBrowser st o = (Except.error e, st)) ∧
    (∀ b c p t, st.browser = none → resolveBrowser st o = Except.ok st →
      o.launch = Except.ok b → o.newContext = Except.ok c →
      o.newPage = Except.ok p → o.title = Except.ok t →
      startBrowser st o =
        (Except.ok (),
         { st with browser := some b, context := some c,
                   currentTab := some ⟨st.tabIdCounter, p, t⟩,
                   tabIdCounter := st.tabIdCounter + 1 })) ∧
    (∀ st1 b c p t, resolveBrowser st o = Except.ok st1 → st1.browser = some b →
      o.newContext = Except.ok c → o.newPage = Except.ok p →
      o.title = Except.ok t →
      startBrowser st o =
        (Except.ok (),
         { st1 with context := some c,
                    currentTab := some ⟨st.tabIdCounter, p, t⟩,
                    tabIdCounter := st.tabIdCounter + 1 })) := by
  refine ⟨?_, ?_, ?_, ?_⟩
  · intro e h
    simp [startBrowser, h]
  · intro e hb hres hl
    simp [startBrowser, hres, hb, hl, Except.map]
  · intro b c p t hb hres hl hc hp ht
    simp [startBrowser, hres, hb, hl, hc, hp, ht, Except.map, openFirstTab]
  · intro st1 b c p t hres hb hc hp ht
    have hnb : ¬(st1.browser = none) := by rw [hb]; simp
    obtain ⟨hcnt, -, -, -⟩ := resolveBrowser_ok_counter st st1 o hres
    simp [startBrowser, hres, hnb, openFirstTab, hc, hp, ht, hcnt]

/-- Witness for C6 (amended) at concrete inputs: a fresh session whose
default launch rejects stays exactly in its initial state, and a fresh
session whose driver calls all succeed ends with the first tab assigned
id 0 and made current. -/
theorem startBrowser_spec_witness :
    startBrowser (initSession ⟨none, none⟩)
      ⟨Except.error "u", Except.error "u", Except.error "launch failed",
       Except.ok 2, Except.ok 3, Except.ok "Home"⟩ =
      (Except.error "launch failed", initSession ⟨none, none⟩) ∧
    startBrowser (initSession ⟨none, none⟩)
      ⟨Except.error "u", Except.error "u", Except.ok 1,
       Except.ok 2, Except.ok 3, Except.ok "Home"⟩ =
      (Except.ok (),
       { browser := some 1, context := some 2,
         currentTab := some ⟨0, 3, "Home"⟩, otherTabs := [],
         tabIdCounter := 1, config := ⟨none, none⟩ }) :=
  ⟨(startBrowser_spec (initSession ⟨none, none⟩)
      ⟨Except.error "u", Except.error "u", Except.error "launch failed",
       Except.ok 2, Except.ok 3, Except.ok "Home"⟩).2.1
      "launch failed" rfl rfl rfl,
   (startBrowser_spec (initSession ⟨none, none⟩)
      ⟨Except.error "u", Except.error "u", Except.ok 1,
       Except.ok 2, Except.ok 3, Except.ok "Home"⟩).2.2.1
      1 2 3 "Home" rfl rfl rfl rfl rfl rfl⟩

/-! ## Tab-id allocation across a session's lifetime -/

theorem openFirstTab_counter (st2 : SessionState) (o : StartOracle) :
    (st2.tabIdCounter ≤ (openFirstTab st2 o).2.tabIdCounter ∧
     (openFirstTab st2 o).2.tabIdCounter ≤ st2.tabIdCounter + 1) ∧
    ((openFirstTab st2 o).1 = Except.ok () →
      (openFirstTab st2 o).2.tabIdCounter = st2.tabIdCounter + 1) := by
  cases hc : o.newContext <;> cases hp : o.newPage <;> cases ht : o.title <;>
    simp [openFirstTab, hc, hp, ht]

theorem startBrowser_counter (st : SessionState) (o : StartOracle) :
    (st.tabIdCounter ≤ (startBrowser st o).2.tabIdCounter ∧
     (startBrowser st o).2.tabIdCounter ≤ st.tabIdCounter + 1) ∧
    ((startBrowser st o).1 = Except.ok () →
      (startBrowser st o).2.tabIdCounter = st.tabIdCounter + 1) := by
  unfold startBrowser
  cases hres : resolveBrowser st o with
  | error e => simp
  | ok st1 =>
    obtain ⟨hcnt, -, -, -⟩ := resolveBrowser_ok_counter st st1 o hres
    by_cases hb : st1.browser = none
    · cases hl : o.launch with
      | error e => simp [hb, hl, Except.map, hcnt]
      | ok b =>
        have h2 := openFirstTab_counter { st1 with browser := some b } o
        simp only [hb, if_true, hl, Except.map] at *
        simpa [hcnt] using h2
    · have h2 := openFirstTab_counter st1 o
      simp only [hb, if_false] at *
      simpa [hcnt] using h2

theorem openNewTab_counter (st : SessionState) (o : OpenOracle) :
    (st.tabIdCounter ≤ (openNewTab st o).2.tabIdCounter ∧
     (openNewTab st o).2.tabIdCounter ≤ st.tabIdCounter + 1) ∧
    (∀ tab, (openNewTab st o).1 = Except.ok tab →
      (openNewTab st o).2.tabIdCounter = st.tabIdCounter + 1) := by
  cases hctx : st.context <;> cases hp : o.newPage <;> cases hg : o.goto <;>
    cases ht : o.title <;> simp [openNewTab, hctx, hp, hg, ht]

theorem switchTab_counter (st : SessionState) (tabId : Nat) :
    ((switchTab st tabId).2.1).tabIdCounter = st.tabIdCounter := by
  cases hext : extractTab st.otherTabs tabId with
  | none => simp [switchTab, hext]
  | some pr =>
    obtain ⟨f, r⟩ := pr
    simp [switchTab, hext]

theorem closeBrowser_counter (st : SessionState) (o : Except String Unit) :
    ((closeBrowser st o).2).tabIdCounter = st.tabIdCounter := by
  cases hb : st.browser <;> cases o <;> simp [closeBrowser, hb]

/-- One session operation together with the driver outcomes it observes. -/
inductive SessionOp where
  | startOp (o : StartOracle)
  | openOp (o : OpenOracle)
  | switchOp (tabId : Nat)
  | closeOp (o : Except String Unit)

/-- Applies one operation; the second component lists the ids assigned to
newly created tabs by this operation (`startBrowser` and `openNewTab` assign
`st.tabIdCounter` exactly when they succeed, the other operations assign
none). -/
def applyOp (st : SessionState) : SessionOp → SessionState × List Nat
  | SessionOp.startOp o =>
    ((startBrowser st o).2,
     match (startBrowser st o).1 with
     | Except.ok _ => [st.tabIdCounter]
     | Except.error _ => [])
  | SessionOp.openOp o =>
    ((openNewTab st o).2,
     match (openNewTab st o).1 with
     | Except.ok _ => [st.tabIdCounter]
     | Except.error _ => [])
  | SessionOp.switchOp tabId => ((switchTab st tabId).2.1, [])
  | SessionOp.closeOp o => ((closeBrowser st o).2, [])

/-- Runs a sequence of session operations, collecting the assigned tab ids
in allocation order. -/
def run (st : SessionState) : List SessionOp → SessionState × List Nat
  | [] => (st, [])
  | op :: rest =>
    ((run (applyOp st op).1 rest).1,
     (applyOp st op).2 ++ (run (applyOp st op).1 rest).2)

theorem applyOp_ids (st : SessionState) (op : SessionOp) :
    st.tabIdCounter ≤ (applyOp st op).1.tabIdCounter ∧
    ∀ i ∈ (applyOp st op).2,
      st.tabIdCounter ≤ i ∧ i < (applyOp st op).1.tabIdCounter := by
  cases op with
  | startOp o =>
    obtain ⟨⟨h1, h2⟩, h3⟩ := startBrowser_counter st o
    cases hr : (startBrowser st o).1 with
    | error e =>
      refine ⟨h1, ?_⟩
      simp [applyOp, hr]
    | ok u =>
      cases u
      have hcnt := h3 hr
      refine ⟨h1, ?_⟩
      intro i hi
      simp [applyOp, hr] at hi
      subst hi
      simp [applyOp, hcnt]
  | openOp o =>
    obtain ⟨⟨h1, h2⟩, h3⟩ := openNewTab_counter st o
    cases hr : (openNewTab st o).1 with
    | error e =>
      refine ⟨h1, ?_⟩
      simp [applyOp, hr]
    | ok tab =>
      have hcnt := h3 tab hr
      refine ⟨h1, ?_⟩
      intro i hi
      simp [applyOp, hr] at hi
      subst hi
      simp [applyOp, hcnt]
  | switchOp tabId =>
    refine ⟨?_, ?_⟩
    · simp [applyOp, switchTab_counter]
    · simp [applyOp]
  | closeOp o =>
    refine ⟨?_, ?_⟩
    · simp [applyOp, closeBrowser_counter]
    · simp [applyOp]

theorem run_ids (st : SessionState) (ops : List SessionOp) :
    st.tabIdCounter ≤ (run st ops).1.tabIdCounter ∧
    (∀ i ∈ (run st ops).2,
      st.tabIdCounter ≤ i ∧ i < (run st ops).1.tabIdCounter) ∧
    List.Chain' (· < ·) (run st ops).2 := by
  induction ops generalizing st with
  | nil => simp [run]
  | cons op rest ih =>
    obtain ⟨h1, h2⟩ := applyOp_ids st op
    obtain ⟨ih1, ih2, ih3⟩ := ih (applyOp st op).1
    refine ⟨le_trans h1 ih1, ?_, ?_⟩
    · intro i hi
      simp only [run, List.mem_append] at hi
      rcases hi with hi | hi
      · obtain ⟨ha, hb⟩ := h2 i hi
        exact ⟨ha, lt_of_lt_of_le hb ih1⟩
      · obtain ⟨ha, hb⟩ := ih2 i hi
        exact ⟨le_trans h1 ha, by simpa [run] using hb⟩
    · simp only [run]
      rw [List.chain'_append]
      refine ⟨?_, ih3, ?_⟩
      · cases op with
        | startOp o =>
          simp only [applyOp]
          cases (startBrowser st o).1 <;> simp
        | openOp o =>
          simp only [applyOp]
          cases (openNewTab st o).1 <;> simp
        | switchOp tabId => simp [applyOp]
        | closeOp o => simp [applyOp]
      · intro x hx y hy
        have hxmem : x ∈ (applyOp st op).2 := List.mem_of_mem_getLast? hx
        have hymem : y ∈ (run (applyOp st op).1 rest).2 := List.mem_of_mem_head? hy
        exact lt_of_lt_of_le (h2 x hxmem).2 (ih2 y hymem).1

/-- C5: along every sequence of session operations (`startBrowser`,
`openNewTab`, `switchTab`, `closeBrowser`) from a fresh session, the tab ids
assigned to tabs are strictly increasing in allocation order, so no id is
ever assigned to two different tabs within the session's lifetime, even
after reordering via `switchTab` (and even across a close/restart, since
`closeBrowser` does not reset the counter). -/
theorem tabIds_strictly_increasing (cfg : ScreenSenseConfig)
    (ops : List SessionOp) :
    List.Chain' (· < ·) (run (initSession cfg) ops).2 ∧
    List.Pairwise (· ≠ ·) (run (initSession cfg) ops).2 := by
  have h := (run_ids (initSession cfg) ops).2.2
  exact ⟨h, (List.chain'_iff_pairwise.mp h).imp Nat.ne_of_lt⟩

end ScreenSense
